import Mathlib

/-!
Verification of `make_hirisplex_by_sample_refaware.py`.

The script converts a tab-separated genotype matrix (CHROM, POS, ID, REF,
ALT, then one column per sample) into a per-sample allele-count table for a
panel of (rsID, target allele) pairs.  The development below is a shallow
embedding of its core functions: `dna_complement`, `gt_count_for_alt`,
`gt_count_for_ref`, `decide_target_side`, `read_matrix`, and the table
assembly loop of `main`.

Python strings are modelled as Lean `String` (a structure over `List Char`);
the character-level operations the script uses (`in`, `split(sep, 1)`,
`split("\t")`, `strip()`, `upper()`) are modelled by the structural
functions `splitFirst`, `pySplitTab`, `pyStrip`, `strUpper` below, so that
every definition evaluates inside the kernel.
-/

/-- Model of Python `s.upper()` for the ASCII alphabet the script uses:
uppercase every character. -/
def strUpper (s : String) : String := String.mk (s.data.map Char.toUpper)

/-- Model of Python `s.split(sep, 1)` for a one-character separator, in the
case (the only one the script exercises) where `sep` occurs in the string:
the part before the first occurrence of `sep`, and everything after it. -/
def splitFirst (sep : Char) : List Char → List Char × List Char
  | [] => ([], [])
  | c :: cs =>
    if c = sep then ([], cs)
    else
      let p := splitFirst sep cs
      (c :: p.1, p.2)

/-- Model of Python `line.split("\t")`: split on every tab, keeping empty
parts, so the empty string yields one empty field. -/
def splitCharAll (sep : Char) : List Char → List (List Char)
  | [] => [[]]
  | c :: cs =>
    if c = sep then [] :: splitCharAll sep cs
    else
      match splitCharAll sep cs with
      | [] => [[c]]
      | p :: ps => (c :: p) :: ps

/-- `line.split("\t")` at the `String` level. -/
def pySplitTab (s : String) : List String :=
  (splitCharAll '\t' s.data).map String.mk

/-- Model of Python `s.strip()`: drop whitespace from both ends. -/
def pyStrip (s : String) : String :=
  String.mk (((s.data.dropWhile Char.isWhitespace).reverse.dropWhile
    Char.isWhitespace).reverse)

/-- `dna_complement(base)` (source lines 131–135): uppercase the input and
look it up in `{A↦T, T↦A, C↦G, G↦C}`; `none` models to the Python `None`
returned by `dict.get` on any other string. -/
def dna_complement (base : String) : Option String :=
  let b := strUpper base
  if b = "A" then some "T"
  else if b = "T" then some "A"
  else if b = "C" then some "G"
  else if b = "G" then some "C"
  else none

/-- `gt_count_for_alt(gt)` (source lines 138–159): count ALT alleles (the
components equal to `"1"`) in a genotype string; `"NA"` for missing. -/
def gt_count_for_alt (gt : String) : String :=
  if gt = "." ∨ gt = "./." then "NA"
  else if '|' ∈ gt.data then
    if (splitFirst '|' gt.data).1 = ['.'] ∨ (splitFirst '|' gt.data).2 = ['.'] then "NA"
    else toString ((if (splitFirst '|' gt.data).1 = ['1'] then 1 else 0)
      + (if (splitFirst '|' gt.data).2 = ['1'] then 1 else 0) : Nat)
  else if '/' ∈ gt.data then
    if (splitFirst '/' gt.data).1 = ['.'] ∨ (splitFirst '/' gt.data).2 = ['.'] then "NA"
    else toString ((if (splitFirst '/' gt.data).1 = ['1'] then 1 else 0)
      + (if (splitFirst '/' gt.data).2 = ['1'] then 1 else 0) : Nat)
  else
    if gt = "." then "NA"
    else if gt ≠ "0" ∧ gt ≠ "1" then "NA"
    else if gt = "1" then "1" else "0"

/-- `gt_count_for_ref(gt)` (source lines 162–182): count REF alleles (the
components equal to `"0"`); haploid `"0"` counts 1 and `"1"` counts 0. -/
def gt_count_for_ref (gt : String) : String :=
  if gt = "." ∨ gt = "./." then "NA"
  else if '|' ∈ gt.data then
    if (splitFirst '|' gt.data).1 = ['.'] ∨ (splitFirst '|' gt.data).2 = ['.'] then "NA"
    else toString ((if (splitFirst '|' gt.data).1 = ['0'] then 1 else 0)
      + (if (splitFirst '|' gt.data).2 = ['0'] then 1 else 0) : Nat)
  else if '/' ∈ gt.data then
    if (splitFirst '/' gt.data).1 = ['.'] ∨ (splitFirst '/' gt.data).2 = ['.'] then "NA"
    else toString ((if (splitFirst '/' gt.data).1 = ['0'] then 1 else 0)
      + (if (splitFirst '/' gt.data).2 = ['0'] then 1 else 0) : Nat)
  else
    if gt = "." then "NA"
    else if gt ≠ "0" ∧ gt ≠ "1" then "NA"
    else if gt = "0" then "1" else "0"

/-- `decide_target_side(ref, alt, allele)` (source lines 185–223): uppercase
all three strings, then in order try exact match with ALT, exact match with
REF, complement of REF (when REF is a single base), complement of ALT (when
ALT is a single base), and the single-base indel patterns `alt == ref + t`
and `ref == alt + t` (when the target is a single base); otherwise `NONE`.
(The source also computes `dna_complement(t)` into an unused local `tc`.) -/
def decide_target_side (ref alt allele : String) : String :=
  let r := strUpper ref
  let a := strUpper alt
  let t := strUpper allele
  if t = a then "ALT"
  else if t = r then "REF"
  else
    let rc := if r.length = 1 then dna_complement r else none
    let ac := if a.length = 1 then dna_complement a else none
    if rc = some t then "REF"
    else if ac = some t then "ALT"
    else if t.length = 1 then
      if a = r ++ t then "ALT"
      else if r = a ++ t then "REF"
      else "NONE"
    else "NONE"

example : gt_count_for_alt "1|0" = "1" := by decide
example : gt_count_for_alt "1|1" = "2" := by decide
example : gt_count_for_alt "0/0" = "0" := by decide
example : gt_count_for_alt "./." = "NA" := by decide
example : gt_count_for_alt "." = "NA" := by decide
example : gt_count_for_alt "1" = "1" := by decide
example : gt_count_for_alt "0" = "0" := by decide
example : gt_count_for_alt "2|1" = "1" := by decide
example : gt_count_for_alt "2|2" = "0" := by decide
example : gt_count_for_ref "1|0" = "1" := by decide
example : decide_target_side "A" "C" "C" = "ALT" := by decide
example : decide_target_side "C" "A" "G" = "REF" := by decide
example : decide_target_side "AT" "A" "T" = "ALT" := by decide
example : decide_target_side "C" "CT" "T" = "ALT" := by decide
example : decide_target_side "CT" "C" "T" = "REF" := by decide

/-- One value of the matrix dictionary built by `read_matrix`:
`{"REF": ref, "ALT": alt, "GT": [gt per sample index]}`. -/
structure VariantRec where
  REF : String
  ALT : String
  GT : List String
deriving DecidableEq, Repr

/-- Python `dict` lookup for a dictionary built by repeated assignment
`data[rsid] = ...`, modelled on the assignment list in file order: the
latest binding of a key wins. -/
def pyDictGet (d : List (String × VariantRec)) (k : String) : Option VariantRec :=
  match d with
  | [] => none
  | (k₀, v₀) :: rest =>
    match pyDictGet rest k with
    | some v => some v
    | none => if k₀ = k then some v₀ else none

/-- The genotype padding of `read_matrix` (source lines 255–257): when a
row has fewer genotype fields than samples, append `"./."` entries up to the
sample count; otherwise leave the fields alone (no truncation). -/
def padGts (n : Nat) (gts : List String) : List String :=
  if gts.length < n then gts ++ List.replicate (n - gts.length) "./." else gts

/-- The data-row loop of `read_matrix` (source lines 246–259): skip empty
lines and lines with fewer than 5 tab-separated fields; otherwise take
`fields[2:5]` as rsid/ref/alt (trimmed) and `fields[5:]` as genotypes,
padded with `"./."` up to the number of samples when the row is short.
Rows are kept in file order; `pyDictGet` applies the dict overwrite rule. -/
def readRows (sample_names : List String) : List String → List (String × VariantRec)
  | [] => []
  | line :: rest =>
    if line = "" then readRows sample_names rest
    else if (pySplitTab line).length < 5 then readRows sample_names rest
    else
      (pyStrip ((pySplitTab line).getD 2 ""),
        { REF := pyStrip ((pySplitTab line).getD 3 "")
          ALT := pyStrip ((pySplitTab line).getD 4 "")
          GT := padGts sample_names.length ((pySplitTab line).drop 5) })
        :: readRows sample_names rest

/-- `read_matrix(path)` (source lines 226–260), with the file contents given
as its list of lines (newlines already removed, as `rstrip("\n")` does):
`none` models `die` (empty file or header with fewer than 6 columns);
otherwise return the sample names (header fields from index 5 on, stripped)
and the variant dictionary. -/
def read_matrix (lines : List String) : Option (List String × List (String × VariantRec)) :=
  match lines with
  | [] => none
  | headerLine :: rest =>
    if headerLine = "" then none
    else
      let header := (pySplitTab headerLine).map pyStrip
      if header.length < 6 then none
      else some (header.drop 5, readRows (header.drop 5) rest)

/-- The presence check of the `side == "NONE"` branch of `main` (source
lines 315–331): `"NA"` when the genotype is missing or any split component
is `"."`, otherwise `"0"`. -/
def gt_presence_val (gt : String) : String :=
  if gt = "." ∨ gt = "./." then "NA"
  else
    let parts :=
      if '|' ∈ gt.data then [(splitFirst '|' gt.data).1, (splitFirst '|' gt.data).2]
      else if '/' ∈ gt.data then [(splitFirst '/' gt.data).1, (splitFirst '/' gt.data).2]
      else [gt.data]
    if ['.'] ∈ parts then "NA" else "0"

/-- The per-sample value `main` writes for a panel entry, as a function of
the resolved side (source lines 302–331): `gt_count_for_alt` when `"ALT"`,
`gt_count_for_ref` when `"REF"`, and the presence check otherwise. -/
def sideFun (side : String) : String → String :=
  if side = "ALT" then gt_count_for_alt
  else if side = "REF" then gt_count_for_ref
  else gt_presence_val

/-- Replace the element at index `i` of a list by `f` of it; out-of-range
indices leave the list unchanged (used only at in-range indices here). -/
def updateAt : List α → Nat → (α → α) → List α
  | [], _, _ => []
  | x :: xs, 0, f => f x :: xs
  | x :: xs, n + 1, f => x :: updateAt xs n f

/-- `rows[si][col_idx] = v`, the assignment of `main`'s fill loops. -/
def setCell (rows : List (List String)) (si ci : Nat) (v : String) : List (List String) :=
  updateAt rows si (fun row => row.set ci v)

/-- One fill loop of `main` (`for si, gt in enumerate(gts)`, source lines
303–334): starting at sample index `si`, write `f gt` into column `ci` of
each sample's row and clear `all_na_flags[fi]` whenever the value written is
not `"NA"`. -/
def fillFold (f : String → String) (ci fi : Nat) :
    Nat → List String → List (List String) × List Bool → List (List String) × List Bool
  | _, [], st => st
  | si, gt :: rest, st =>
    fillFold f ci fi (si + 1) rest
      (setCell st.1 si ci (f gt),
       if f gt ≠ "NA" then st.2.set fi false else st.2)

/-- Process one panel entry of index `idx` (source lines 290–334): look the
rsid up in the matrix; when absent leave the state unchanged (`continue`),
otherwise resolve the side once and run the fill loop over the record's
genotypes at column `idx + 1`. -/
def processEntry (matrix : List (String × VariantRec)) (idx : Nat)
    (rsid allele : String) (st : List (List String) × List Bool) :
    List (List String) × List Bool :=
  match pyDictGet matrix rsid with
  | none => st
  | some info =>
    fillFold (sideFun (decide_target_side info.REF info.ALT allele))
      (idx + 1) idx 0 info.GT st

/-- The panel loop of `main` (`for idx, (rsid, allele) in enumerate(panel)`),
with the running entry index made explicit. -/
def buildTableAux (matrix : List (String × VariantRec)) :
    Nat → List (String × String) → List (List String) × List Bool →
    List (List String) × List Bool
  | _, [], st => st
  | idx, (rsid, allele) :: rest, st =>
    buildTableAux matrix (idx + 1) rest (processEntry matrix idx rsid allele st)

/-- The table assembly of `main` (source lines 283–334): rows initialised to
`[s, "NA", ..., "NA"]` per sample, `all_na_flags` initialised to all `True`,
then the panel loop. Returns (rows, all_na_flags). -/
def buildTable (samples : List String) (panel : List (String × String))
    (matrix : List (String × VariantRec)) : List (List String) × List Bool :=
  buildTableAux matrix 0 panel
    (samples.map (fun s => s :: List.replicate panel.length "NA"),
     List.replicate panel.length true)

/-- The all-NA warning loop of `main` (source lines 348–353): the list of
`"{rsid}_{allele}"` column labels whose flag is still `True`, with the
running panel index made explicit. -/
def warnAux (flags : List Bool) : Nat → List (String × String) → List String
  | _, [] => []
  | idx, (rsid, allele) :: rest =>
    (if flags.getD idx false then [rsid ++ "_" ++ allele] else [])
      ++ warnAux flags (idx + 1) rest

/-- The columns reported as entirely NA after a run. -/
def warnings (panel : List (String × String)) (flags : List Bool) : List String :=
  warnAux flags 0 panel

/-- The sequence of `(si, col_idx)` index pairs at which `main`'s assembly
performs `rows[si][col_idx] = val` (source lines 305, 311, 332): for each
panel entry found in the matrix, one write per `enumerate(gts)` iteration,
at column `idx + 1`; the write pattern is the same in all three side
branches. Entries absent from the matrix produce no writes. -/
def assemblyWritesAux (matrix : List (String × VariantRec)) :
    Nat → List (String × String) → List (Nat × Nat)
  | _, [] => []
  | idx, (rsid, _) :: rest =>
    (match pyDictGet matrix rsid with
     | none => []
     | some info => (List.range info.GT.length).map (fun si => (si, idx + 1)))
      ++ assemblyWritesAux matrix (idx + 1) rest

/-- All `(si, col_idx)` write index pairs of the assembly loop. -/
def assembly_writes (matrix : List (String × VariantRec))
    (panel : List (String × String)) : List (Nat × Nat) :=
  assemblyWritesAux matrix 0 panel

example :
    read_matrix ["CHROM\tPOS\tID\tREF\tALT\tS1\tS2", "5\t33\trs1\tC\tA\t1|1"] =
      some (["S1", "S2"], [("rs1", { REF := "C", ALT := "A", GT := ["1|1", "./."] })]) := by
  decide

example :
    read_matrix ["CHROM\tPOS\tID\tREF\tALT\tS1", "5\t33\trs1\tC\tA\t1|1\t0|0"] =
      some (["S1"], [("rs1", { REF := "C", ALT := "A", GT := ["1|1", "0|0"] })]) := by
  decide

example :
    buildTable ["S1"] [("rsX", "A")] [("rsX", { REF := "G", ALT := "A", GT := ["0|1"] })] =
      ([["S1", "1"]], [false]) := by decide

example :
    buildTable ["S1", "S2"] [("rsY", "A")] [] =
      ([["S1", "NA"], ["S2", "NA"]], [true]) := by decide

example : warnings [("rsY", "A")] [true] = ["rsY_A"] := by decide

/-- Numeric value of a count token: `"0"`, `"1"`, `"2"` denote 0, 1, 2. -/
def countTokenVal (s : String) : Nat :=
  if s = "0" then 0 else if s = "1" then 1 else if s = "2" then 2 else 0

/-- The number of genotype components (given as character lists) exactly
equal to `"1"`. -/
def numComponentsEqOne : List (List Char) → Nat
  | [] => 0
  | x :: rest => (if x = ['1'] then 1 else 0) + numComponentsEqOne rest

/-- C1: the claim states that `decide_target_side("AT", "A", "T")` returns
`REF` via the single-base indel path. It does not: the run returns `"ALT"`
(see the amending theorem), so in particular it is not `"REF"`. -/
theorem c1_indel_example_not_ref : decide_target_side "AT" "A" "T" ≠ "REF" := by decide

/-- C1 (amended): `decide_target_side(ref="AT", alt="A", target="T")`
returns `ALT`, resolved via the complement-of-ALT rule — `alt` is a single
base and `complement("A") = "T"` matches the target — which the source
checks before the indel heuristics, so the indel path is never reached. -/
theorem c1_indel_example_alt_via_complement :
    decide_target_side "AT" "A" "T" = "ALT" ∧
    dna_complement (strUpper "A") = some (strUpper "T") := by decide

/-- C3: for every two-allele genotype built from components in `{"0","1"}`
and a separator in `{"|","/"}`, neither count is `"NA"`, the ALT count plus
the REF count equals 2 as integers, and the REF count is 2 minus the ALT
count. -/
theorem c3_alt_ref_counts_sum_to_two (x y sep : String)
    (hx : x ∈ (["0", "1"] : List String)) (hy : y ∈ (["0", "1"] : List String))
    (hsep : sep ∈ (["|", "/"] : List String)) :
    gt_count_for_alt (x ++ sep ++ y) ≠ "NA" ∧
    gt_count_for_ref (x ++ sep ++ y) ≠ "NA" ∧
    countTokenVal (gt_count_for_alt (x ++ sep ++ y))
      + countTokenVal (gt_count_for_ref (x ++ sep ++ y)) = 2 ∧
    countTokenVal (gt_count_for_ref (x ++ sep ++ y))
      = 2 - countTokenVal (gt_count_for_alt (x ++ sep ++ y)) := by
  fin_cases hx <;> fin_cases hy <;> fin_cases hsep <;> decide

/-- C3 witness at `x = "0"`, `y = "1"`, `sep = "|"`. -/
theorem c3_witness :
    gt_count_for_alt ("0" ++ "|" ++ "1") ≠ "NA" ∧
    gt_count_for_ref ("0" ++ "|" ++ "1") ≠ "NA" ∧
    countTokenVal (gt_count_for_alt ("0" ++ "|" ++ "1"))
      + countTokenVal (gt_count_for_ref ("0" ++ "|" ++ "1")) = 2 ∧
    countTokenVal (gt_count_for_ref ("0" ++ "|" ++ "1"))
      = 2 - countTokenVal (gt_count_for_alt ("0" ++ "|" ++ "1")) :=
  c3_alt_ref_counts_sum_to_two "0" "1" "|" (by decide) (by decide) (by decide)

/-- C4: exact equality with ALT is checked first and wins over every other
rule; exact equality with REF is checked second and wins over the complement
and indel rules; in particular `decide_target_side("A", "C", "C") = ALT`. -/
theorem c4_exact_match_priority :
    (∀ ref alt allele : String, strUpper allele = strUpper alt →
      decide_target_side ref alt allele = "ALT") ∧
    (∀ ref alt allele : String, strUpper allele ≠ strUpper alt →
      strUpper allele = strUpper ref → decide_target_side ref alt allele = "REF") ∧
    decide_target_side "A" "C" "C" = "ALT" := by
  refine ⟨?_, ?_, by decide⟩
  · intro ref alt allele h
    simp [decide_target_side, h]
  · intro ref alt allele h1 h2
    rw [h2] at h1
    simp [decide_target_side, h1, h2]

/-- C4 witness: exact ALT match on `("G", "T", "t")`, exact REF match on
`("G", "T", "g")` even though `complement(G) = C` exists. -/
theorem c4_witness :
    decide_target_side "G" "T" "t" = "ALT" ∧ decide_target_side "G" "T" "g" = "REF" :=
  ⟨c4_exact_match_priority.1 "G" "T" "t" (by decide),
   c4_exact_match_priority.2.1 "G" "T" "g" (by decide) (by decide)⟩

/-- C5: `decide_target_side("C", "A", "G") = REF`; the complement table is
exactly `{A↔T, C↔G}` (any other input yields no match); and whenever no
exact match holds, REF is a single base and the target equals
`complement(ref)`, the result is `REF` — checked before the complement of
ALT, whatever ALT is. -/
theorem c5_complement_rules :
    decide_target_side "C" "A" "G" = "REF" ∧
    (∀ b c : String, dna_complement b = some c →
      (strUpper b, c) ∈
        ([("A", "T"), ("T", "A"), ("C", "G"), ("G", "C")] : List (String × String))) ∧
    (∀ ref alt allele : String, strUpper allele ≠ strUpper alt →
      strUpper allele ≠ strUpper ref → (strUpper ref).length = 1 →
      dna_complement (strUpper ref) = some (strUpper allele) →
      decide_target_side ref alt allele = "REF") := by
  refine ⟨by decide, ?_, ?_⟩
  · intro b c h
    simp only [dna_complement] at h
    split_ifs at h with h1 h2 h3 h4 <;> simp_all
  · intro ref alt allele h1 h2 h3 h4
    simp [decide_target_side, h1, h2, h3, h4]

/-- C5 witness: complement lookup of `"t"` is `"A"`, and
`("C", "T", "g")` resolves to REF through `complement(C) = G`. -/
theorem c5_witness :
    (strUpper "t", "A") ∈
      ([("A", "T"), ("T", "A"), ("C", "G"), ("G", "C")] : List (String × String)) ∧
    decide_target_side "C" "T" "g" = "REF" :=
  ⟨c5_complement_rules.2.1 "t" "A" (by decide),
   c5_complement_rules.2.2 "C" "T" "g" (by decide) (by decide) (by decide) (by decide)⟩

/-- C6: on every input string whatsoever, `gt_count_for_alt` and
`gt_count_for_ref` return one of the four tokens `"0"`, `"1"`, `"2"`,
`"NA"`. -/
theorem c6_counts_in_token_set (gt : String) :
    gt_count_for_alt gt ∈ (["0", "1", "2", "NA"] : List String) ∧
    gt_count_for_ref gt ∈ (["0", "1", "2", "NA"] : List String) := by
  constructor
  · unfold gt_count_for_alt
    split_ifs <;> decide
  · unfold gt_count_for_ref
    split_ifs <;> decide

/-- Padding yields exactly `n` genotypes when the row brought at most `n`. -/
theorem padGts_length (n : Nat) (gts : List String) (h : gts.length ≤ n) :
    (padGts n gts).length = n := by
  unfold padGts
  split_ifs with h1
  · simp
    omega
  · omega

/-- Every record the data-row loop emits carries exactly one genotype per
sample, provided no data row has more tab-separated fields than `H` and the
sample count is `H - 5`. -/
theorem readRows_gt_length (sample_names : List String) (H : Nat)
    (hseq : sample_names.length = H - 5) :
    ∀ (rest : List String), (∀ line ∈ rest, (pySplitTab line).length ≤ H) →
      ∀ e ∈ readRows sample_names rest, e.2.GT.length = sample_names.length := by
  intro rest
  induction rest with
  | nil =>
    intro _ e he
    simp [readRows] at he
  | cons line rest ih =>
    intro hle e he
    have hline : (pySplitTab line).length ≤ H := hle line (by simp)
    have hrest : ∀ l ∈ rest, (pySplitTab l).length ≤ H :=
      fun l hl => hle l (by simp [hl])
    simp only [readRows] at he
    split_ifs at he with h1 h2
    · exact ih hrest e he
    · exact ih hrest e he
    · rcases List.mem_cons.mp he with rfl | he
      · have hd : ((pySplitTab line).drop 5).length ≤ sample_names.length := by
          rw [List.length_drop]
          omega
        simpa using padGts_length sample_names.length _ hd
      · exact ih hrest e he

/-- Unpack a successful `read_matrix` run: the samples are the stripped
header fields from index 5 on, and the data is the data-row loop's output. -/
theorem read_matrix_some_eq (header : String) (rest : List String)
    (samples : List String) (data : List (String × VariantRec))
    (h : read_matrix (header :: rest) = some (samples, data)) :
    samples = ((pySplitTab header).map pyStrip).drop 5 ∧
    data = readRows (((pySplitTab header).map pyStrip).drop 5) rest := by
  simp only [read_matrix] at h
  split_ifs at h
  rw [Option.some.injEq, Prod.mk.injEq] at h
  exact ⟨h.1.symm, h.2.symm⟩

/-- C2 (counterexample to the claim as stated): a data row with more
genotype fields than samples is not truncated — with one sample in the
header, the loader returns a record whose genotype list has length 2,
not 1. -/
theorem c2_counterexample :
    read_matrix ["CHROM\tPOS\tID\tREF\tALT\tS1", "1\t2\trs1\tA\tC\t0|1\t1|1"] =
      some (["S1"], [("rs1", { REF := "A", ALT := "C", GT := ["0|1", "1|1"] })]) ∧
    ¬ ((["0|1", "1|1"] : List String).length = (["S1"] : List String).length) := by
  decide

/-- Shared helper: under the bounded-row precondition, every record of a
successful `read_matrix` run carries one genotype per sample. -/
theorem read_matrix_gt_length (header : String) (rest : List String)
    (samples : List String) (data : List (String × VariantRec))
    (hle : ∀ line ∈ rest, (pySplitTab line).length ≤ (pySplitTab header).length)
    (hrm : read_matrix (header :: rest) = some (samples, data)) :
    ∀ e ∈ data, e.2.GT.length = samples.length := by
  obtain ⟨hs, hd⟩ := read_matrix_some_eq header rest samples data hrm
  subst hs
  subst hd
  exact readRows_gt_length _ (pySplitTab header).length
    (by rw [List.length_drop, List.length_map]) rest hle

/-- C2 (amended): for every data row with at most as many tab-separated
fields as the header row, the record's genotype list has exactly the length
of the sample-name sequence — rows with fewer genotype fields than samples
are padded with `"./."` up to that length. (Rows with more fields than the
header keep their extra genotype fields; see the counterexample.) -/
theorem c2_gt_length_matches_samples (header : String) (rest : List String)
    (samples : List String) (data : List (String × VariantRec))
    (hle : ∀ line ∈ rest, (pySplitTab line).length ≤ (pySplitTab header).length)
    (hrm : read_matrix (header :: rest) = some (samples, data)) :
    ∀ e ∈ data, e.2.GT.length = samples.length :=
  read_matrix_gt_length header rest samples data hle hrm

/-- C2 witness: a concrete matrix with one sample and a short row. -/
theorem c2_witness :
    ({ REF := "A", ALT := "C", GT := ["0|1"] } : VariantRec).GT.length =
      (["S1"] : List String).length :=
  c2_gt_length_matches_samples "CHROM\tPOS\tID\tREF\tALT\tS1" ["1\t2\trs1\tA\tC\t0|1"]
    ["S1"] [("rs1", { REF := "A", ALT := "C", GT := ["0|1"] })]
    (by decide) (by decide)
    ("rs1", { REF := "A", ALT := "C", GT := ["0|1"] }) (by decide)

/-- A successful dictionary lookup returns a binding present in the
assignment list. -/
theorem pyDictGet_mem (d : List (String × VariantRec)) (k : String) (v : VariantRec)
    (h : pyDictGet d k = some v) : (k, v) ∈ d := by
  induction d with
  | nil => simp [pyDictGet] at h
  | cons kv rest ih =>
    obtain ⟨k₀, v₀⟩ := kv
    simp only [pyDictGet] at h
    cases hrec : pyDictGet rest k with
    | some v1 =>
      rw [hrec] at h
      rw [Option.some.injEq] at h
      exact List.mem_cons_of_mem _ (ih (by rw [hrec, h]))
    | none =>
      rw [hrec] at h
      split_ifs at h with hk
      rw [Option.some.injEq] at h
      rw [← hk, ← h]
      exact List.mem_cons_self _ _

/-- Bounds for the write-index trace: when every matrix record carries `n`
genotypes, every write `(si, col_idx)` emitted from panel position `j`
onward has `si < n` and `j + 1 ≤ col_idx ≤ j + panel.length`. -/
theorem assemblyWritesAux_bounds (matrix : List (String × VariantRec)) (n : Nat)
    (hGT : ∀ e ∈ matrix, e.2.GT.length = n) :
    ∀ (panel : List (String × String)) (j : Nat),
      ∀ w ∈ assemblyWritesAux matrix j panel,
        w.1 < n ∧ j + 1 ≤ w.2 ∧ w.2 ≤ j + panel.length := by
  intro panel
  induction panel with
  | nil =>
    intro j w hw
    simp [assemblyWritesAux] at hw
  | cons entry rest ih =>
    intro j w hw
    obtain ⟨rsid, allele⟩ := entry
    simp only [assemblyWritesAux] at hw
    rw [List.mem_append] at hw
    rcases hw with hw | hw
    · cases hlk : pyDictGet matrix rsid with
      | none =>
        rw [hlk] at hw
        simp at hw
      | some info =>
        rw [hlk] at hw
        simp only [List.mem_map, List.mem_range] at hw
        obtain ⟨si, hsi, rfl⟩ := hw
        have hlen := hGT (rsid, info) (pyDictGet_mem matrix rsid info hlk)
        refine ⟨by simpa [hlen] using hsi, by simp, by simp only [List.length_cons]; omega⟩
    · have hrec := ih (j + 1) w hw
      refine ⟨hrec.1, by omega, ?_⟩
      have := hrec.2.2
      simp only [List.length_cons]
      omega

/-- C9: under the precondition that every matrix data row has at most as
many tab-separated fields as the header row, every `rows[si][col_idx]`
write of the assembly loop is in bounds: `si` is below the number of
samples (the number of rows) and `col_idx` lies between 1 and the number
of panel entries. -/
theorem c9_assembly_writes_in_bounds (header : String) (rest : List String)
    (panel : List (String × String)) (samples : List String)
    (data : List (String × VariantRec))
    (hle : ∀ line ∈ rest, (pySplitTab line).length ≤ (pySplitTab header).length)
    (hrm : read_matrix (header :: rest) = some (samples, data)) :
    ∀ w ∈ assembly_writes data panel,
      w.1 < samples.length ∧ 1 ≤ w.2 ∧ w.2 ≤ panel.length := by
  have hGT : ∀ e ∈ data, e.2.GT.length = samples.length :=
    read_matrix_gt_length header rest samples data hle hrm
  intro w hw
  have h := assemblyWritesAux_bounds data samples.length hGT panel 0 w hw
  exact ⟨h.1, by omega, by simpa using h.2.2⟩

/-- C9 witness: one sample, one panel entry present in the matrix; the
single write is `(0, 1)`. -/
theorem c9_witness :
    ((0, 1) : Nat × Nat).1 < (["S1"] : List String).length ∧
    1 ≤ ((0, 1) : Nat × Nat).2 ∧
    ((0, 1) : Nat × Nat).2 ≤ ([("rs1", "A")] : List (String × String)).length :=
  c9_assembly_writes_in_bounds "CHROM\tPOS\tID\tREF\tALT\tS1" ["1\t2\trs1\tA\tC\t0|1"]
    [("rs1", "A")] ["S1"] [("rs1", { REF := "A", ALT := "C", GT := ["0|1"] })]
    (by decide) (by decide) (0, 1) (by decide)

/-- C8: the seven quoted evaluations of `gt_count_for_alt`. -/
theorem c8_gt_count_for_alt_examples :
    gt_count_for_alt "1|0" = "1" ∧ gt_count_for_alt "1|1" = "2" ∧
    gt_count_for_alt "0/0" = "0" ∧ gt_count_for_alt "./." = "NA" ∧
    gt_count_for_alt "." = "NA" ∧ gt_count_for_alt "1" = "1" ∧
    gt_count_for_alt "0" = "0" := by decide


/-- The `data` field of a constructed string is its character list. -/
theorem data_mk (l : List Char) : (String.mk l).data = l := rfl

/-- Two strings differ when a character is in one but not the other. -/
theorem mk_ne_of_mem_not_mem (c : Char) {l : List Char} (s : String)
    (hc : c ∈ l) (hc' : c ∉ s.data) : String.mk l ≠ s := by
  intro h
  exact hc' ((congrArg String.data h) ▸ hc)

/-- `splitFirst` undoes gluing with a separator absent from the left part. -/
theorem splitFirst_append (sep : Char) (b : List Char) :
    ∀ a : List Char, sep ∉ a → splitFirst sep (a ++ sep :: b) = (a, b) := by
  intro a
  induction a with
  | nil =>
    intro _
    simp [splitFirst]
  | cons c cs ih =>
    intro h
    have hc : ¬ c = sep := fun hcs => h (by simp [hcs])
    simp only [List.cons_append, splitFirst, if_neg hc, List.append_eq]
    rw [ih (fun hs => h (by simp [hs]))]

/-- A genotype glued from non-separator parts is not the `"./."` sentinel. -/
theorem mk_ne_dotslashdot (a b : List Char) (sep : Char) (hsep : sep = '|' ∨ sep = '/')
    (ha2 : '/' ∉ a) (hadot : a ≠ ['.']) : String.mk (a ++ sep :: b) ≠ "./." := by
  rcases hsep with rfl | rfl
  · exact mk_ne_of_mem_not_mem '|' "./." (by simp) (by decide)
  · intro h
    have hd : a ++ '/' :: b = "./.".data := congrArg String.data h
    have h2 : splitFirst '/' (a ++ '/' :: b) = splitFirst '/' "./.".data :=
      congrArg (splitFirst '/') hd
    rw [splitFirst_append '/' b a ha2] at h2
    have h3 : splitFirst '/' "./.".data = (['.'], ['.']) := by decide
    rw [h3] at h2
    exact hadot (congrArg Prod.fst h2)

/-- C10: on a two-allele genotype `a|b` or `a/b` whose components contain no
separators and are not `"."`, `gt_count_for_alt` returns the string form of
the number of components exactly equal to `"1"`; components outside
`{"0","1"}` contribute zero rather than producing `"NA"`, e.g.
`gt_count_for_alt("2|1") = "1"` and `gt_count_for_alt("2|2") = "0"`. -/
theorem c10_diploid_counts_ones (a b : List Char) (sep : Char)
    (hsep : sep = '|' ∨ sep = '/') (ha1 : '|' ∉ a) (hb1 : '|' ∉ b) (ha2 : '/' ∉ a)
    (hadot : a ≠ ['.']) (hbdot : b ≠ ['.']) :
    gt_count_for_alt (String.mk (a ++ sep :: b)) = toString (numComponentsEqOne [a, b]) ∧
    gt_count_for_alt "2|1" = "1" ∧ gt_count_for_alt "2|2" = "0" := by
  refine ⟨?_, by decide, by decide⟩
  have hne1 : String.mk (a ++ sep :: b) ≠ "." := by
    rcases hsep with rfl | rfl
    · exact mk_ne_of_mem_not_mem '|' "." (by simp) (by decide)
    · exact mk_ne_of_mem_not_mem '/' "." (by simp) (by decide)
  have hne2 : String.mk (a ++ sep :: b) ≠ "./." := mk_ne_dotslashdot a b sep hsep ha2 hadot
  have hcnt : numComponentsEqOne [a, b]
      = (if a = ['1'] then 1 else 0) + (if b = ['1'] then 1 else 0) := by
    simp [numComponentsEqOne]
  rcases hsep with rfl | rfl
  · unfold gt_count_for_alt
    simp only [data_mk]
    rw [if_neg (not_or.mpr ⟨hne1, hne2⟩), if_pos (show '|' ∈ a ++ '|' :: b by simp),
      splitFirst_append '|' b a ha1]
    rw [if_neg (not_or.mpr ⟨hadot, hbdot⟩ : ¬((a, b).1 = ['.'] ∨ (a, b).2 = ['.']))]
    rw [hcnt]
  · have hnotbar : '|' ∉ a ++ '/' :: b := by
      simp only [List.mem_append, List.mem_cons]
      push_neg
      exact ⟨ha1, by decide, hb1⟩
    unfold gt_count_for_alt
    simp only [data_mk]
    rw [if_neg (not_or.mpr ⟨hne1, hne2⟩), if_neg hnotbar,
      if_pos (show '/' ∈ a ++ '/' :: b by simp), splitFirst_append '/' b a ha2]
    rw [if_neg (not_or.mpr ⟨hadot, hbdot⟩ : ¬((a, b).1 = ['.'] ∨ (a, b).2 = ['.']))]
    rw [hcnt]

/-- C10 witness at `a = "2"`, `b = "1"`, separator `"|"`. -/
theorem c10_witness :
    gt_count_for_alt (String.mk (['2'] ++ '|' :: ['1']))
      = toString (numComponentsEqOne [['2'], ['1']]) ∧
    gt_count_for_alt "2|1" = "1" ∧ gt_count_for_alt "2|2" = "0" :=
  c10_diploid_counts_ones ['2'] ['1'] '|' (by decide) (by decide) (by decide)
    (by decide) (by decide) (by decide)

/-- Setting one index of a list leaves every other index unchanged. -/
theorem get?_set_ne {α} : ∀ (l : List α) (i j : Nat) (v : α), i ≠ j →
    (l.set i v).get? j = l.get? j := by
  intro l
  induction l with
  | nil => intro i j v _; simp
  | cons x xs ih =>
    intro i j v h
    cases i with
    | zero =>
      cases j with
      | zero => exact absurd rfl h
      | succ j => simp [List.set]
    | succ i =>
      cases j with
      | zero => simp [List.set]
      | succ j => simpa [List.set] using ih i j v (by omega)

/-- A pointwise-preserved property survives an `updateAt`. -/
theorem updateAt_forall {α} (P : α → Prop) (f : α → α) (hf : ∀ x, P x → P (f x)) :
    ∀ (l : List α) (i : Nat), (∀ x ∈ l, P x) → ∀ x ∈ updateAt l i f, P x := by
  intro l
  induction l with
  | nil => intro i _ x hx; simp [updateAt] at hx
  | cons y ys ih =>
    intro i h x hx
    cases i with
    | zero =>
      simp only [updateAt] at hx
      rcases List.mem_cons.mp hx with rfl | hx
      · exact hf y (h y (by simp))
      · exact h x (by simp [hx])
    | succ n =>
      simp only [updateAt] at hx
      rcases List.mem_cons.mp hx with rfl | hx
      · exact h x (by simp)
      · exact ih n (fun z hz => h z (by simp [hz])) x hx

/-- The fill loop never touches a column other than the one it writes. -/
theorem fillFold_fst_invariant (f : String → String) (ci fi c : Nat) (hc : ci ≠ c) :
    ∀ (gts : List String) (si : Nat) (st : List (List String) × List Bool),
      (∀ row ∈ st.1, row.get? c = some "NA") →
      ∀ row ∈ (fillFold f ci fi si gts st).1, row.get? c = some "NA" := by
  intro gts
  induction gts with
  | nil =>
    intro si st h
    simpa [fillFold] using h
  | cons gt rest ih =>
    intro si st h
    simp only [fillFold]
    apply ih
    show ∀ row ∈ updateAt st.1 si (fun row => row.set ci (f gt)),
      row.get? c = some "NA"
    exact updateAt_forall _ _
      (fun x hx => by rw [get?_set_ne x ci c (f gt) hc]; exact hx) st.1 si h

/-- The fill loop never touches a flag other than the one it clears. -/
theorem fillFold_snd_invariant (f : String → String) (ci fi j : Nat) (hj : fi ≠ j) :
    ∀ (gts : List String) (si : Nat) (st : List (List String) × List Bool),
      st.2.get? j = some true →
      (fillFold f ci fi si gts st).2.get? j = some true := by
  intro gts
  induction gts with
  | nil =>
    intro si st h
    simpa [fillFold] using h
  | cons gt rest ih =>
    intro si st h
    simp only [fillFold]
    apply ih
    show (if f gt ≠ "NA" then st.2.set fi false else st.2).get? j = some true
    split_ifs with hna
    · rw [get?_set_ne st.2 fi j false hj]
      exact h
    · exact h

/-- Processing panel entry `idx` leaves every column other than `idx + 1`
all-NA if it was. -/
theorem processEntry_fst_invariant (matrix : List (String × VariantRec)) (idx : Nat)
    (rsid allele : String) (st : List (List String) × List Bool) (c : Nat)
    (hc : idx + 1 ≠ c) (h : ∀ row ∈ st.1, row.get? c = some "NA") :
    ∀ row ∈ (processEntry matrix idx rsid allele st).1, row.get? c = some "NA" := by
  unfold processEntry
  cases pyDictGet matrix rsid with
  | none => exact h
  | some info => exact fillFold_fst_invariant _ (idx + 1) idx c hc info.GT 0 st h

/-- Processing panel entry `idx` leaves every flag other than `idx` alone. -/
theorem processEntry_snd_invariant (matrix : List (String × VariantRec)) (idx : Nat)
    (rsid allele : String) (st : List (List String) × List Bool) (j : Nat)
    (hj : idx ≠ j) (h : st.2.get? j = some true) :
    (processEntry matrix idx rsid allele st).2.get? j = some true := by
  unfold processEntry
  cases pyDictGet matrix rsid with
  | none => exact h
  | some info => exact fillFold_snd_invariant _ (idx + 1) idx j hj info.GT 0 st h

/-- Main invariant of the panel loop: if the entry at absolute index `idx0`
is absent from the matrix, column `idx0 + 1` stays all-NA and flag `idx0`
stays `True`. -/
theorem buildTableAux_invariant (matrix : List (String × VariantRec)) (idx0 : Nat) :
    ∀ (panel : List (String × String)) (j : Nat) (st : List (List String) × List Bool),
      (∀ (k : Nat) (e : String × String), panel.get? k = some e → j + k = idx0 →
        pyDictGet matrix e.1 = none) →
      (∀ row ∈ st.1, row.get? (idx0 + 1) = some "NA") →
      st.2.get? idx0 = some true →
      (∀ row ∈ (buildTableAux matrix j panel st).1, row.get? (idx0 + 1) = some "NA") ∧
      (buildTableAux matrix j panel st).2.get? idx0 = some true := by
  intro panel
  induction panel with
  | nil =>
    intro j st _ h1 h2
    exact ⟨by simp only [buildTableAux]; exact h1, by simp only [buildTableAux]; exact h2⟩
  | cons entry rest ih =>
    intro j st hk h1 h2
    obtain ⟨rsid, allele⟩ := entry
    simp only [buildTableAux]
    have hk' : ∀ (k : Nat) (e : String × String), rest.get? k = some e →
        (j + 1) + k = idx0 → pyDictGet matrix e.1 = none := by
      intro k e hke hsum
      exact hk (k + 1) e (by simpa using hke) (by omega)
    by_cases hj : j = idx0
    · have hnone : pyDictGet matrix rsid = none := by
        have := hk 0 (rsid, allele) (by simp) (by omega)
        simpa using this
      have hpe : processEntry matrix j rsid allele st = st := by
        unfold processEntry
        rw [hnone]
      rw [hpe]
      exact ih (j + 1) st hk' h1 h2
    · exact ih (j + 1) _ hk'
        (processEntry_fst_invariant matrix j rsid allele st (idx0 + 1) (by omega) h1)
        (processEntry_snd_invariant matrix j rsid allele st idx0 hj h2)

/-- In-range lookups in a replicated list return the repeated element. -/
theorem get?_replicate {α} (x : α) : ∀ (n i : Nat), i < n →
    (List.replicate n x).get? i = some x := by
  intro n
  induction n with
  | zero => intro i h; omega
  | succ n ih =>
    intro i h
    cases i with
    | zero => simp [List.replicate]
    | succ i => simpa [List.replicate] using ih i (by omega)

/-- A successful indexed lookup implies the index is in range. -/
theorem get?_some_lt {α} : ∀ (l : List α) (n : Nat) (a : α),
    l.get? n = some a → n < l.length := by
  intro l
  induction l with
  | nil => intro n a h; simp at h
  | cons x xs ih =>
    intro n a h
    cases n with
    | zero => simp
    | succ n =>
      have := ih n a (by simpa using h)
      simp only [List.length_cons]
      omega

/-- `getD` with default `false` returns `true` where `get?` found `true`. -/
theorem getD_eq_true_of_get? (flags : List Bool) (i : Nat)
    (h : flags.get? i = some true) : flags.getD i false = true := by
  simp only [List.getD]
  rw [h]
  rfl

/-- A panel entry whose flag is still set appears in the warning list. -/
theorem warnAux_mem (flags : List Bool) :
    ∀ (panel : List (String × String)) (j k : Nat) (rsid allele : String),
      panel.get? k = some (rsid, allele) → flags.getD (j + k) false = true →
      (rsid ++ "_" ++ allele) ∈ warnAux flags j panel := by
  intro panel
  induction panel with
  | nil => intro j k rsid allele h1 _; simp at h1
  | cons entry rest ih =>
    intro j k rsid allele h1 h2
    cases k with
    | zero =>
      have he : entry = (rsid, allele) := by simpa using h1
      subst he
      have h2' : flags.getD j false = true := by simpa using h2
      simp only [warnAux]
      rw [h2']
      simp
    | succ k =>
      have h1' : rest.get? k = some (rsid, allele) := by simpa using h1
      have h2' : flags.getD ((j + 1) + k) false = true := by
        rw [show (j + 1) + k = j + (k + 1) by omega]
        exact h2
      simp only [warnAux]
      exact List.mem_append.mpr (Or.inr (ih (j + 1) k rsid allele h1' h2'))

/-- C7: when a panel entry's rsid has no record in the matrix, the
assembled table holds `"NA"` in that entry's column for every sample's row,
the entry's all-NA flag remains `True`, and the entry's `rsid_allele`
column label is reported in the post-run all-missing warnings. -/
theorem c7_absent_panel_entry_all_na (samples : List String)
    (panel : List (String × String)) (matrix : List (String × VariantRec))
    (idx : Nat) (rsid allele : String)
    (hget : panel.get? idx = some (rsid, allele))
    (hnone : pyDictGet matrix rsid = none) :
    (∀ row ∈ (buildTable samples panel matrix).1, row.get? (idx + 1) = some "NA") ∧
    (buildTable samples panel matrix).2.get? idx = some true ∧
    (rsid ++ "_" ++ allele) ∈ warnings panel (buildTable samples panel matrix).2 := by
  have hidx : idx < panel.length := get?_some_lt panel idx _ hget
  have hk : ∀ (k : Nat) (e : String × String), panel.get? k = some e → 0 + k = idx →
      pyDictGet matrix e.1 = none := by
    intro k e hke hsum
    have hki : k = idx := by omega
    subst hki
    rw [hget] at hke
    have he : e = (rsid, allele) := by simpa using hke.symm
    rw [he]
    exact hnone
  have h1 : ∀ row ∈ samples.map (fun s => s :: List.replicate panel.length "NA"),
      row.get? (idx + 1) = some "NA" := by
    intro row hrow
    rw [List.mem_map] at hrow
    obtain ⟨s, _, rfl⟩ := hrow
    simpa using get?_replicate "NA" panel.length idx hidx
  have h2 : (List.replicate panel.length true).get? idx = some true :=
    get?_replicate true panel.length idx hidx
  have key := buildTableAux_invariant matrix idx panel 0
    (samples.map (fun s => s :: List.replicate panel.length "NA"),
     List.replicate panel.length true) hk h1 h2
  refine ⟨key.1, key.2, ?_⟩
  exact warnAux_mem (buildTable samples panel matrix).2 panel 0 idx rsid allele hget
    (by rw [show (0 : Nat) + idx = idx from by omega]
        exact getD_eq_true_of_get? _ idx key.2)

/-- C7 witness: one sample, one panel entry, empty matrix. -/
theorem c7_witness :
    ((["S1", "NA"] : List String).get? (0 + 1) = some "NA") ∧
    (buildTable ["S1"] [("rs9", "A")] []).2.get? 0 = some true ∧
    ("rs9" ++ "_" ++ "A") ∈ warnings [("rs9", "A")] (buildTable ["S1"] [("rs9", "A")] []).2 :=
  ⟨(c7_absent_panel_entry_all_na ["S1"] [("rs9", "A")] [] 0 "rs9" "A"
      (by decide) (by decide)).1 ["S1", "NA"] (by decide),
   (c7_absent_panel_entry_all_na ["S1"] [("rs9", "A")] [] 0 "rs9" "A"
      (by decide) (by decide)).2.1,
   (c7_absent_panel_entry_all_na ["S1"] [("rs9", "A")] [] 0 "rs9" "A"
      (by decide) (by decide)).2.2⟩
